import Mathlib

set_option maxHeartbeats 1000000

/-!
Shallow embedding of the Session Lifecycle & Tool-Dispatch Controller of
`components/ChatKitPanel.tsx` (with its host `App.tsx`), together with
theorems settling the specification claims about it.

JavaScript runtime values reaching the controller (parsed JSON payloads,
tool-call parameters) are modelled by the inductive type `JValue`; JSON
numbers are modelled as integers, which is enough for every code path the
controller exercises (it never computes with numbers).  React state and
refs of the component are gathered in `ControllerState`; the externally
visible calls the component makes (theme callback, fact persistence
handler, message send) are modelled as an emitted list of `Effect`s.
-/

namespace ChatKitPanel

/-- A JSON-like JavaScript value, as produced by `JSON.parse` or carried in
tool-invocation parameter records. -/
inductive JValue where
  | null : JValue
  | bool : Bool → JValue
  | num : Int → JValue
  | str : String → JValue
  | arr : List JValue → JValue
  | obj : List (String × JValue) → JValue

/-- Property access `v[key]`: `some` when `v` is an object carrying the key,
`none` (JS `undefined`) otherwise. -/
def jGet : JValue → String → Option JValue
  | .obj fields, key => (fields.find? (fun p => p.1 == key)).map (fun p => p.2)
  | _, _ => none

/-- JS falsiness of a value (`!v`): null, false, 0 and the empty string are
falsy; objects and arrays are always truthy. -/
def jFalsy : JValue → Bool
  | .null => true
  | .bool b => !b
  | .num n => n == 0
  | .str s => s == ""
  | .arr _ => false
  | .obj _ => false

/-- The check `typeof v === "object" && v !== null && "message" in v &&
typeof v.message === "string"` (the `isErrorLikeWithMessage` type guard of
the source), returning the string message when it holds. -/
def hasStringMessage : JValue → Option String
  | .obj fields =>
    match fields.find? (fun p => p.1 == "message") with
    | some (_, .str s) => some s
    | _ => none
  | _ => none

/-- The check `typeof v === "string"` on an optionally-present field. -/
def stringOf : Option JValue → Option String
  | some (.str s) => some s
  | _ => none

/-- The string-or-object-with-string-message rule applied to a value (used
by the source on `details.error`). -/
def strOrMessage (v : JValue) : Option String :=
  match v with
  | .str s => some s
  | _ => hasStringMessage v

/-- `extractErrorDetail` of the source: successive early returns, first on
a string `error` field, then an `error` object with a string `message`, a
string `details` field, `details.error` under the string-or-message rule,
a string top-level `message`, and finally the supplied fallback (the HTTP
status text).  A falsy payload returns the fallback at once. -/
def extractErrorDetail (payload : Option JValue) (fallback : String) : String :=
  match payload with
  | none => fallback
  | some p =>
    if jFalsy p then fallback
    else
      match stringOf (jGet p "error") with
      | some s => s
      | none =>
        match (jGet p "error").bind hasStringMessage with
        | some m => m
        | none =>
          match stringOf (jGet p "details") with
          | some s => s
          | none =>
            match ((jGet p "details").bind (fun d => jGet d "error")).bind strOrMessage with
            | some s => s
            | none =>
              match stringOf (jGet p "message") with
              | some s => s
              | none => fallback

/-- The ordered fallback rules of the specification, stated as a list of
independent rules over the payload: (1) string `error`; (2) `error` object
with string `message`; (3) string `details`; (4) `details.error` under the
string-or-message rule; (5) string top-level `message`. -/
def specDetailRules (p : JValue) : List (Option String) :=
  [ stringOf (jGet p "error"),
    (jGet p "error").bind hasStringMessage,
    stringOf (jGet p "details"),
    ((jGet p "details").bind (fun d => jGet d "error")).bind strOrMessage,
    stringOf (jGet p "message") ]

/-- First matching rule of an ordered rule list. -/
def firstMatch : List (Option String) → Option String
  | [] => none
  | some s :: _ => some s
  | none :: rest => firstMatch rest

/-- Error-detail extraction as worded by the specification: the first match
of the ordered fallback rules, and otherwise the transport status text. -/
def specErrorDetail (payload : Option JValue) (statusText : String) : String :=
  match payload with
  | none => statusText
  | some p => (firstMatch (specDetailRules p)).getD statusText

/-- JS `String(v)` coercion: strings unchanged, `null` prints as `"null"`,
booleans and integers print as usual, plain objects print as
`"[object Object]"`, and an array prints as its elements joined by commas
with `null` elements printing as the empty string. -/
def jsString : JValue → String
  | .null => "null"
  | .bool b => cond b "true" "false"
  | .num n => toString n
  | .str s => s
  | .obj _ => "[object Object]"
  | .arr [] => ""
  | .arr [JValue.null] => ""
  | .arr [v] => jsString v
  | .arr (JValue.null :: y :: ys) => "," ++ jsString (.arr (y :: ys))
  | .arr (v :: y :: ys) => jsString v ++ "," ++ jsString (.arr (y :: ys))

/-- The expression `String(v ?? "")` applied to an optionally-present
parameter: absent (`undefined`) and `null` both collapse to the empty
string before coercion. -/
def jsCoerceParam : Option JValue → String
  | none => ""
  | some .null => ""
  | some v => jsString v

/-- Whitespace class of the JS regex `\s` (ASCII whitespace, NBSP, the
Unicode space separators, line and paragraph separators, and the BOM). -/
def isJsWs (c : Char) : Bool :=
  c == ' ' || c == '\t' || c == '\n' || c == '\r' ||
  c == Char.ofNat 0x0b || c == Char.ofNat 0x0c || c == Char.ofNat 0xa0 ||
  c == Char.ofNat 0x1680 ||
  (decide (0x2000 ≤ c.toNat) && decide (c.toNat ≤ 0x200a)) ||
  c == Char.ofNat 0x2028 || c == Char.ofNat 0x2029 || c == Char.ofNat 0x202f ||
  c == Char.ofNat 0x205f || c == Char.ofNat 0x3000 || c == Char.ofNat 0xfeff

/-- Core of `replace(/\s+/g, " ")`: each maximal run of whitespace becomes
one space; the flag records whether the previous character was whitespace. -/
def collapseWsAux : Bool → List Char → List Char
  | _, [] => []
  | prevWs, c :: cs =>
    if isJsWs c then
      if prevWs then collapseWsAux true cs
      else ' ' :: collapseWsAux true cs
    else c :: collapseWsAux false cs

/-- The fact-text normalisation `text.replace(/\s+/g, " ").trim()`. -/
def normalizeFactText (s : String) : String :=
  (String.mk (collapseWsAux false s.data)).trim

/-- React state and refs of the `ChatKitPanel` component that the claims
speak about: the fact-dedup set (a ref holding a `Set<string>`),
the error-surface message, the `isInitializingSession` flag, the widget
instance key (remount generation counter), the auto-start guard ref and
the mounted-liveness ref. -/
structure ControllerState where
  processedFacts : List String
  errorMessage : Option String
  isInitializingSession : Bool
  widgetInstanceKey : Nat
  hasAutoStarted : Bool
  isMounted : Bool
deriving DecidableEq

/-- The component state at mount: empty dedup set, no error, initializing,
generation zero, auto-start not yet fired, mounted. -/
def initialControllerState : ControllerState :=
  { processedFacts := []
    errorMessage := none
    isInitializingSession := true
    widgetInstanceKey := 0
    hasAutoStarted := false
    isMounted := true }

/-- The component state of an instance that has been torn down (the
cleanup effect flipped the mounted ref). -/
def unmountedState : ControllerState :=
  { initialControllerState with isMounted := false }

/-- Calls the component makes to the outside world: the theme-request
callback, the fact persistence handler `onWidgetAction`, the widget
`sendUserMessage` routine, the response-end notification, and logging. -/
inductive Effect where
  | themeRequest (scheme : String)
  | widgetAction (factId : String) (factText : String)
  | sendUserMessage (text : String) (newThread : Bool)
  | responseEndNotify
  | logError
deriving DecidableEq

/-- A client tool invocation delivered by the widget: a name and a
parameter record. -/
structure ToolInvocation where
  name : String
  params : List (String × JValue)

/-- Parameter record access `invocation.params[key]`. -/
def lookupParam (params : List (String × JValue)) (key : String) : Option JValue :=
  (params.find? (fun p => p.1 == key)).map (fun p => p.2)

/-- The structured result `{ success: boolean }` every invocation receives. -/
structure ToolResult where
  success : Bool
deriving DecidableEq

/-- The `onClientTool` handler: `switch_theme` invokes the theme callback
only for the exact strings `"light"` and `"dark"`; `record_fact` coerces
`fact_id` and `fact_text` with `String(x ?? "")`, returns success at once
on an empty or already-processed id, and otherwise adds the id to the
dedup set and then emits the (fire-and-forget) persistence-handler call
with the whitespace-normalised text; any other name returns failure. -/
def onClientTool (st : ControllerState) (inv : ToolInvocation) :
    ControllerState × List Effect × ToolResult :=
  if inv.name == "switch_theme" then
    match stringOf (lookupParam inv.params "theme") with
    | some s =>
      if s == "light" || s == "dark" then (st, [.themeRequest s], ⟨true⟩)
      else (st, [], ⟨false⟩)
    | none => (st, [], ⟨false⟩)
  else if inv.name == "record_fact" then
    let id := jsCoerceParam (lookupParam inv.params "fact_id")
    let text := jsCoerceParam (lookupParam inv.params "fact_text")
    if id == "" || st.processedFacts.contains id then
      (st, [], ⟨true⟩)
    else
      ({ st with processedFacts := id :: st.processedFacts },
       [.widgetAction id (normalizeFactText text)], ⟨true⟩)
  else
    (st, [], ⟨false⟩)

/-- Sequential processing of a list of tool invocations (the widget awaits
each result before delivering the next), accumulating emitted effects. -/
def runTools : ControllerState → List ToolInvocation → ControllerState × List Effect
  | st, [] => (st, [])
  | st, inv :: rest =>
    let step := onClientTool st inv
    let restRun := runTools step.1 rest
    (restRun.1, step.2.1 ++ restRun.2)

/-- Number of persistence-handler invocations for fact id `f` in an
effect trace. -/
def countFact (f : String) : List Effect → Nat
  | [] => 0
  | .widgetAction id _ :: rest => (if id = f then 1 else 0) + countFact f rest
  | _ :: rest => countFact f rest

/-- A `record_fact` invocation with string id and text parameters. -/
def recordFactInv (id text : String) : ToolInvocation :=
  ⟨"record_fact", [("fact_id", .str id), ("fact_text", .str text)]⟩

/-- The `onThreadChange` handler: clears the fact-dedup set and the
auto-start guard, touching nothing else. -/
def onThreadChange (st : ControllerState) : ControllerState :=
  { st with processedFacts := [], hasAutoStarted := false }

/-- The `onResponseStart` handler: clears the error-surface message. -/
def onResponseStart (st : ControllerState) : ControllerState :=
  { st with errorMessage := none }

/-- The `onResponseEnd` handler: forwards the notification, no state change. -/
def onResponseEnd (st : ControllerState) : ControllerState × List Effect :=
  (st, [.responseEndNotify])

/-- The `onError` handler: logs and does nothing else. -/
def onErrorHandler (st : ControllerState) : ControllerState × List Effect :=
  (st, [.logError])

/-- The `handleResetChat` callback: clears the dedup set and the auto-start
guard, re-enters initialization, clears errors, and bumps the widget
instance key so the embedded widget remounts. -/
def handleResetChat (st : ControllerState) : ControllerState :=
  { st with
    processedFacts := []
    hasAutoStarted := false
    isInitializingSession := true
    errorMessage := none
    widgetInstanceKey := st.widgetInstanceKey + 1 }

/-- One firing of the auto-start effect: whether the widget handle and the
send routine exist, and the `autoStartText` prop value (absent, or a
string, the empty string being falsy). -/
structure AutoStartFiring where
  controlReady : Bool
  sendAvailable : Bool
  autoStartText : Option String

/-- JS falsiness of the optional `autoStartText` prop. -/
def textFalsy : Option String → Bool
  | none => true
  | some s => s == ""

/-- Whether a firing satisfies the full ready condition of the effect. -/
def firesReady (f : AutoStartFiring) : Bool :=
  f.controlReady && f.sendAvailable && !(textFalsy f.autoStartText)

/-- The auto-start `useEffect` body: bail out unless control, the send
routine and a non-empty `autoStartText` are all present; bail out when the
guard has already fired; otherwise set the guard and only then emit the
asynchronous new-thread send of the configured text. -/
def autoStartStep (st : ControllerState) (f : AutoStartFiring) :
    ControllerState × List Effect :=
  if !f.controlReady || !f.sendAvailable || textFalsy f.autoStartText then (st, [])
  else if st.hasAutoStarted then (st, [])
  else ({ st with hasAutoStarted := true },
        [.sendUserMessage (f.autoStartText.getD "") true])

/-- Sequential re-firings of the auto-start effect (the ready condition may
re-fire while a send is in flight), accumulating emitted sends. -/
def runAutoStarts : ControllerState → List AutoStartFiring → ControllerState × List Effect
  | st, [] => (st, [])
  | st, f :: rest =>
    let step := autoStartStep st f
    let restRun := runAutoStarts step.1 rest
    (restRun.1, step.2 ++ restRun.2)

/-- Number of `sendUserMessage` calls in an effect trace. -/
def countSends : List Effect → Nat
  | [] => 0
  | .sendUserMessage _ _ :: rest => 1 + countSends rest
  | _ :: rest => countSends rest

/-- The message surfaced when the auto-start send rejects. -/
def autoStartFailureDetail : String :=
  "Connected, but failed to send the initial message. You can type manually."

/-- The catch branch of the auto-start send: log and surface the fixed
message; the guard is deliberately left set (no automatic retry). -/
def autoStartSendFailed (st : ControllerState) : ControllerState :=
  { st with errorMessage := some autoStartFailureDetail }

/-- The configuration predicate
`Boolean(WORKFLOW_ID && !WORKFLOW_ID.startsWith("wf_replace"))`. -/
def isWorkflowConfigured (workflowId : String) : Bool :=
  workflowId != "" && !(workflowId.startsWith "wf_replace")

/-- The configuration-error detail thrown when the workflow id is missing
or still the placeholder. -/
def workflowConfigDetail : String :=
  "Set NEXT_PUBLIC_CHATKIT_WORKFLOW_ID in your .env.local file."

/-- The detail thrown on a success response without a usable credential. -/
def missingSecretDetail : String := "Missing client secret in response"

/-- The detail used when a non-`Error` value is thrown during negotiation. -/
def defaultSessionFailureDetail : String := "Unable to start ChatKit session."

/-- JS falsiness of the `currentSecret: string | null` argument. -/
def secretAbsent : Option String → Bool
  | none => true
  | some s => s == ""

/-- JS falsiness of the optionally-present `client_secret` field. -/
def csFalsy : Option JValue → Bool
  | none => true
  | some v => jFalsy v

/-- The raw response body text, abstracted to what the code distinguishes:
empty, non-empty but unparsable, or parsing to a JSON value. -/
inductive RawBody where
  | empty : RawBody
  | malformed : RawBody
  | json : JValue → RawBody

/-- The `data` value after the tolerant parse step: `{}` when the body is
empty or `JSON.parse` throws, the parsed value otherwise. -/
def parseBody : RawBody → JValue
  | .empty => .obj []
  | .malformed => .obj []
  | .json v => v

/-- Behaviour of the single `fetch` of a negotiation: the call (or reading
the body) rejects — carrying the thrown `Error` message when there is one —
or an HTTP response arrives with an `ok` flag, a status text and a body. -/
inductive NetworkBehavior where
  | fails : Option String → NetworkBehavior
  | responds : Bool → String → RawBody → NetworkBehavior

/-- Outcome of one `getClientSecret` call: the component state after the
call (every `setErrorMessage` / `setIsInitializingSession` it performed,
each guarded by the mounted ref), whether the network request was issued,
and the value returned or the message of the error thrown. -/
structure SecretOutcome where
  state : ControllerState
  networkCalled : Bool
  result : Except String JValue

/-- The `getClientSecret` callback.  Unconfigured workflow: set the error
message, clear the initializing flag (both only while mounted) and throw
without any network call.  Otherwise mark initialization when there is no
current secret, clear the error, and issue the request; a rejected fetch,
a non-ok status (with `extractErrorDetail`), and a missing/empty
`client_secret` all reach the catch branch, which surfaces the derived
detail and rethrows; the success path clears the error and returns the
credential; the finally branch clears the initializing flag whenever there
was no current secret. -/
def getClientSecret (workflowId : String) (st : ControllerState)
    (currentSecret : Option String) (net : NetworkBehavior) : SecretOutcome :=
  if !(isWorkflowConfigured workflowId) then
    let st1 := if st.isMounted then
        { st with errorMessage := some workflowConfigDetail, isInitializingSession := false }
      else st
    ⟨st1, false, .error workflowConfigDetail⟩
  else
    let st1 := if st.isMounted then
        let stA := if secretAbsent currentSecret then
            { st with isInitializingSession := true }
          else st
        { stA with errorMessage := none }
      else st
    match net with
    | .fails errMessage =>
      let detail := errMessage.getD defaultSessionFailureDetail
      let st2 := if st1.isMounted then { st1 with errorMessage := some detail } else st1
      let st3 := if st2.isMounted && secretAbsent currentSecret then
          { st2 with isInitializingSession := false }
        else st2
      ⟨st3, true, .error detail⟩
    | .responds ok statusText body =>
      let data := parseBody body
      if !ok then
        let detail := extractErrorDetail (some data) statusText
        let st2 := if st1.isMounted then { st1 with errorMessage := some detail } else st1
        let st3 := if st2.isMounted && secretAbsent currentSecret then
            { st2 with isInitializingSession := false }
          else st2
        ⟨st3, true, .error detail⟩
      else
        let cs := jGet data "client_secret"
        if csFalsy cs then
          let st2 := if st1.isMounted then
              { st1 with errorMessage := some missingSecretDetail }
            else st1
          let st3 := if st2.isMounted && secretAbsent currentSecret then
              { st2 with isInitializingSession := false }
            else st2
          ⟨st3, true, .error missingSecretDetail⟩
        else
          let st2 := if st1.isMounted then { st1 with errorMessage := none } else st1
          let st3 := if st2.isMounted && secretAbsent currentSecret then
              { st2 with isInitializingSession := false }
            else st2
          ⟨st3, true, .ok (cs.getD .null)⟩

/-- A falsy JavaScript value is never an object, so property access on it
yields `undefined`. -/
theorem jGet_of_falsy (v : JValue) (k : String) (h : jFalsy v = true) :
    jGet v k = none := by
  cases v <;> first | rfl | (exfalso; simp [jFalsy] at h)

/-- The nested early-return chain of the source agrees with the ordered
rule list of the specification. -/
theorem extractErrorDetail_eq_spec (p : Option JValue) (fb : String) :
    extractErrorDetail p fb = specErrorDetail p fb := by
  cases p with
  | none => rfl
  | some v =>
    by_cases hf : jFalsy v = true
    · have h1 := jGet_of_falsy v "error" hf
      have h2 := jGet_of_falsy v "details" hf
      have h3 := jGet_of_falsy v "message" hf
      simp [extractErrorDetail, specErrorDetail, specDetailRules, hf, h1, h2, h3,
        stringOf, firstMatch]
    · simp only [extractErrorDetail, specErrorDetail, specDetailRules]
      rw [if_neg hf]
      generalize stringOf (jGet v "error") = a1
      generalize (jGet v "error").bind hasStringMessage = a2
      generalize stringOf (jGet v "details") = a3
      generalize ((jGet v "details").bind (fun d => jGet d "error")).bind strOrMessage = a4
      generalize stringOf (jGet v "message") = a5
      cases a1 <;> cases a2 <;> cases a3 <;> cases a4 <;> cases a5 <;>
        simp [firstMatch, Option.getD]

/-- Counting persistence-handler calls distributes over trace append. -/
theorem countFact_append (f : String) (a b : List Effect) :
    countFact f (a ++ b) = countFact f a + countFact f b := by
  induction a with
  | nil => simp [countFact]
  | cons e rest ih =>
    cases e <;> simp [countFact, ih, Nat.add_assoc]

/-- An already-processed fact id stays in the dedup set across any tool
invocation, and that invocation emits no persistence call for it. -/
theorem onClientTool_processed_stable (st : ControllerState) (inv : ToolInvocation)
    (f : String) (h : st.processedFacts.contains f = true) :
    (onClientTool st inv).1.processedFacts.contains f = true ∧
    countFact f (onClientTool st inv).2.1 = 0 := by
  simp only [onClientTool]
  repeat' split <;> try simp_all [countFact, List.contains_cons]
  rename_i hcond
  intro hf
  exact hcond.2 (by rw [hf]; simp_all)

/-- Each single tool invocation emits at most one persistence call for a
given id, and when it does emit one the id is in the dedup set of the
state the step leaves behind. -/
theorem onClientTool_emit_cases (st : ControllerState) (inv : ToolInvocation)
    (f : String) :
    countFact f (onClientTool st inv).2.1 = 0 ∨
    (countFact f (onClientTool st inv).2.1 = 1 ∧
     (onClientTool st inv).1.processedFacts.contains f = true) := by
  simp only [onClientTool]
  repeat' split <;> try simp_all [countFact, List.contains_cons]
  rename_i hcond
  by_cases hf : jsCoerceParam (lookupParam inv.params "fact_id") = f
  · exact Or.inr ⟨hf, Or.inl hf.symm⟩
  · exact Or.inl hf

/-- From a state that already processed `f`, a whole run emits no
persistence call for `f`. -/
theorem runTools_processed_zero (f : String) (invs : List ToolInvocation)
    (st : ControllerState) (h : st.processedFacts.contains f = true) :
    countFact f (runTools st invs).2 = 0 := by
  induction invs generalizing st with
  | nil => simp [runTools, countFact]
  | cons inv rest ih =>
    have hstep := onClientTool_processed_stable st inv f h
    simp only [runTools, countFact_append]
    rw [hstep.2, ih _ hstep.1]

/-- Counting sends distributes over trace append. -/
theorem countSends_append (a b : List Effect) :
    countSends (a ++ b) = countSends a + countSends b := by
  induction a with
  | nil => simp [countSends]
  | cons e rest ih => cases e <;> simp [countSends, ih, Nat.add_assoc]

/-- With the guard already set, a firing of the auto-start effect does
nothing. -/
theorem autoStartStep_guarded (st : ControllerState) (f : AutoStartFiring)
    (h : st.hasAutoStarted = true) : autoStartStep st f = (st, []) := by
  simp only [autoStartStep]
  repeat' split <;> simp_all

/-- A firing that does not satisfy the ready condition does nothing. -/
theorem autoStartStep_not_ready (st : ControllerState) (f : AutoStartFiring)
    (h : firesReady f = false) : autoStartStep st f = (st, []) := by
  have hcond : (!f.controlReady || !f.sendAvailable || textFalsy f.autoStartText) = true := by
    cases hc : f.controlReady <;> cases hs : f.sendAvailable <;>
      cases ht : textFalsy f.autoStartText <;> simp_all [firesReady]
  simp [autoStartStep, hcond]

/-- A ready firing against an unset guard sets the guard and emits exactly
the one new-thread send of the configured text. -/
theorem autoStartStep_ready (st : ControllerState) (f : AutoStartFiring)
    (h : firesReady f = true) (hg : st.hasAutoStarted = false) :
    autoStartStep st f =
      ({ st with hasAutoStarted := true },
       [.sendUserMessage (f.autoStartText.getD "") true]) := by
  simp only [firesReady, Bool.and_eq_true, Bool.not_eq_true'] at h
  obtain ⟨⟨h1, h2⟩, h3⟩ := h
  simp [autoStartStep, h1, h2, h3, hg]

/-- With the guard set, a whole run of re-firings emits no send at all. -/
theorem runAutoStarts_guarded (frs : List AutoStartFiring) (st : ControllerState)
    (h : st.hasAutoStarted = true) :
    countSends (runAutoStarts st frs).2 = 0 := by
  induction frs generalizing st with
  | nil => simp [runAutoStarts, countSends]
  | cons f rest ih =>
    simp only [runAutoStarts]
    rw [autoStartStep_guarded st f h]
    simpa [countSends_append, countSends] using ih st h

/-- Any single firing either does nothing or sets the guard while emitting
exactly one send. -/
theorem autoStartStep_cases (st : ControllerState) (f : AutoStartFiring) :
    autoStartStep st f = (st, []) ∨
    ((autoStartStep st f).1.hasAutoStarted = true ∧
     countSends (autoStartStep st f).2 = 1) := by
  simp only [autoStartStep]
  repeat' split <;> simp_all [countSends]

/-- Whatever the starting state, a run of re-firings emits at most one
send. -/
theorem runAutoStarts_le_one (st : ControllerState) (frs : List AutoStartFiring) :
    countSends (runAutoStarts st frs).2 ≤ 1 := by
  induction frs generalizing st with
  | nil => simp [runAutoStarts, countSends]
  | cons f rest ih =>
    simp only [runAutoStarts, countSends_append]
    rcases autoStartStep_cases st f with hc | ⟨h1, h2⟩
    · rw [hc]
      simpa [countSends] using ih st
    · rw [h2, runAutoStarts_guarded rest (autoStartStep st f).1 h1]

/-- From an unset guard, a run of re-firings emits exactly one send when
some firing satisfies the ready condition, and none otherwise. -/
theorem runAutoStarts_fresh (frs : List AutoStartFiring) (st : ControllerState)
    (h : st.hasAutoStarted = false) :
    countSends (runAutoStarts st frs).2 = if frs.any firesReady then 1 else 0 := by
  induction frs generalizing st with
  | nil => simp [runAutoStarts, countSends]
  | cons f rest ih =>
    by_cases hr : firesReady f = true
    · simp only [runAutoStarts]
      rw [autoStartStep_ready st f hr h]
      have hz := runAutoStarts_guarded rest { st with hasAutoStarted := true } rfl
      simp [countSends_append, countSends, hz, hr]
    · have hr' : firesReady f = false := by simpa using hr
      simp only [runAutoStarts]
      rw [autoStartStep_not_ready st f hr']
      simpa [countSends_append, countSends, hr'] using ih st h

/-- An emitted persistence call for id `f` makes the handler count
positive. -/
theorem countFact_pos_of_mem (f text : String) (l : List Effect)
    (h : Effect.widgetAction f text ∈ l) : 1 ≤ countFact f l := by
  induction l with
  | nil => simp at h
  | cons e rest ih =>
    rcases List.mem_cons.mp h with he | hrest
    · rw [← he]
      simp [countFact]
    · have := ih hrest
      cases e <;> simp [countFact] <;> omega

/-- Claim C1: within one thread lifetime (no intervening thread-change or
reset), the fact persistence handler is invoked at most once per distinct
fact id; whenever a dispatch step emits the handler call, the id is
already in the processed-facts set of the state the step leaves behind
(added before the handler is invoked), so a second invocation with the
same id arriving before the first handler resolves is a no-op; in
particular two back-to-back `record_fact` calls with id "f1" invoke the
handler exactly once. -/
theorem recordFact_handler_at_most_once :
    (∀ st invs f, countFact f (runTools st invs).2 ≤ 1) ∧
    (∀ st inv f text, Effect.widgetAction f text ∈ (onClientTool st inv).2.1 →
        (onClientTool st inv).1.processedFacts.contains f = true) ∧
    countFact "f1" (runTools initialControllerState
        [recordFactInv "f1" "hello", recordFactInv "f1" "hello"]).2 = 1 := by
  refine ⟨?_, ?_, ?_⟩
  · intro st invs f
    induction invs generalizing st with
    | nil => simp [runTools, countFact]
    | cons inv rest ih =>
      simp only [runTools, countFact_append]
      rcases onClientTool_emit_cases st inv f with h0 | ⟨h1, h2⟩
      · rw [h0]
        simpa using ih (onClientTool st inv).1
      · rw [h1, runTools_processed_zero f rest _ h2]
  · intro st inv f text hmem
    rcases onClientTool_emit_cases st inv f with h0 | ⟨_, h2⟩
    · exact absurd h0 (by have := countFact_pos_of_mem f text _ hmem; omega)
    · exact h2
  · simp [runTools, countFact_append, countFact, onClientTool, recordFactInv,
      lookupParam, jsCoerceParam, jsString, initialControllerState]

/-- Witness for Claim C1: the step emitting the handler call for "f1" has
"f1" in its processed-facts set. -/
theorem recordFact_handler_at_most_once_witness :
    (onClientTool initialControllerState
        (recordFactInv "f1" "hello")).1.processedFacts.contains "f1" = true := by
  refine recordFact_handler_at_most_once.2.1 initialControllerState
    (recordFactInv "f1" "hello") "f1" (normalizeFactText "hello") ?_
  simp [onClientTool, recordFactInv, lookupParam, jsCoerceParam, jsString,
    initialControllerState]

/-- Claim C2: the surfaced negotiation error detail follows exactly the
ordered fallback of the specification (string `error`; `error.message`;
string `details`; `details.error` under the string-or-message rule;
top-level `message`; status text), and on the payload
with details.error.message equal to "X" the extracted detail is "X". -/
theorem extractErrorDetail_spec_order :
    (∀ payload fallback,
      extractErrorDetail payload fallback = specErrorDetail payload fallback) ∧
    extractErrorDetail
      (some (.obj [("details", .obj [("error", .obj [("message", .str "X")])])]))
      "Internal Server Error" = "X" :=
  ⟨extractErrorDetail_eq_spec, rfl⟩

/-- Claim C3: at most one automatic start message is sent per generation;
whenever a firing emits the send, the guard is already set in the state
the send starts from (and was unset before, so the ready condition
re-firing during the send cannot emit again); the send-failure handler
leaves the guard set and every field other than the error-surface message
unchanged, and the surfaced message is exactly the fixed text. -/
theorem autoStart_single_send :
    (∀ st frs, countSends (runAutoStarts st frs).2 ≤ 1) ∧
    (∀ st f, (autoStartStep st f).2 ≠ [] →
        (autoStartStep st f).1.hasAutoStarted = true ∧ st.hasAutoStarted = false) ∧
    (∀ st, (autoStartSendFailed st).errorMessage = some autoStartFailureDetail ∧
           (autoStartSendFailed st).hasAutoStarted = st.hasAutoStarted ∧
           (autoStartSendFailed st).isInitializingSession = st.isInitializingSession ∧
           (autoStartSendFailed st).widgetInstanceKey = st.widgetInstanceKey ∧
           (autoStartSendFailed st).processedFacts = st.processedFacts) ∧
    autoStartFailureDetail =
      "Connected, but failed to send the initial message. You can type manually." := by
  refine ⟨runAutoStarts_le_one, ?_, fun st => ⟨rfl, rfl, rfl, rfl, rfl⟩, rfl⟩
  intro st f hne
  rcases autoStartStep_cases st f with h0 | ⟨h1, _⟩
  · exact absurd (congrArg Prod.snd h0) hne
  · refine ⟨h1, ?_⟩
    by_contra hg
    have hg' : st.hasAutoStarted = true := by simpa using hg
    exact hne (congrArg Prod.snd (autoStartStep_guarded st f hg'))

/-- Witness for Claim C3: a ready firing from the initial state emits a
send, and the resulting state carries the guard while the initial one did
not. -/
theorem autoStart_single_send_witness :
    (autoStartStep initialControllerState ⟨true, true, some "Start"⟩).1.hasAutoStarted = true ∧
    initialControllerState.hasAutoStarted = false :=
  autoStart_single_send.2.1 initialControllerState ⟨true, true, some "Start"⟩ (by decide)

/-- Claim C4: with an unset, empty, or placeholder-prefixed workflow id,
negotiation issues no network request and throws the configuration detail
at once; on a mounted component it also sets the error message and clears
the initializing flag. -/
theorem getClientSecret_unconfigured (workflowId : String) (st : ControllerState)
    (currentSecret : Option String) (net : NetworkBehavior)
    (h : isWorkflowConfigured workflowId = false) :
    (getClientSecret workflowId st currentSecret net).networkCalled = false ∧
    (getClientSecret workflowId st currentSecret net).result =
      .error workflowConfigDetail ∧
    (st.isMounted = true →
      (getClientSecret workflowId st currentSecret net).state.errorMessage =
        some workflowConfigDetail ∧
      (getClientSecret workflowId st currentSecret net).state.isInitializingSession
        = false) := by
  refine ⟨?_, ?_, ?_⟩
  · simp [getClientSecret, h]
  · simp [getClientSecret, h]
  · intro hm
    simp [getClientSecret, h, hm]

/-- Witness for Claim C4: the empty workflow id fails fast. -/
theorem getClientSecret_unconfigured_witness :
    (getClientSecret "" initialControllerState none (.fails none)).networkCalled = false ∧
    (getClientSecret "" initialControllerState none (.fails none)).result =
      .error workflowConfigDetail ∧
    (getClientSecret "" initialControllerState none
        (.fails none)).state.errorMessage = some workflowConfigDetail ∧
    (getClientSecret "" initialControllerState none
        (.fails none)).state.isInitializingSession = false := by
  have h := getClientSecret_unconfigured "" initialControllerState none (.fails none) rfl
  exact ⟨h.1, h.2.1, (h.2.2 rfl).1, (h.2.2 rfl).2⟩

/-- Claim C5: a success-status response whose parsed payload has no
non-empty `client_secret` fails with exactly the missing-secret message,
which is also surfaced while mounted. -/
theorem getClientSecret_missing_secret (workflowId : String) (st : ControllerState)
    (currentSecret : Option String) (statusText : String) (body : RawBody)
    (hconf : isWorkflowConfigured workflowId = true)
    (hcs : csFalsy (jGet (parseBody body) "client_secret") = true) :
    (getClientSecret workflowId st currentSecret
        (.responds true statusText body)).result = .error missingSecretDetail ∧
    missingSecretDetail = "Missing client secret in response" ∧
    (st.isMounted = true →
      (getClientSecret workflowId st currentSecret
          (.responds true statusText body)).state.errorMessage =
        some missingSecretDetail) := by
  refine ⟨?_, rfl, ?_⟩
  · simp [getClientSecret, hconf, hcs]
  · intro hm
    simp [getClientSecret, hconf, hcs, hm]
    repeat' split <;> simp_all

/-- Witness for Claim C5: HTTP 200 with body per the empty JSON object. -/
theorem getClientSecret_missing_secret_witness :
    (getClientSecret "wf_123" initialControllerState none
        (.responds true "OK" (.json (.obj [])))).result = .error missingSecretDetail ∧
    (getClientSecret "wf_123" initialControllerState none
        (.responds true "OK" (.json (.obj [])))).state.errorMessage =
      some missingSecretDetail := by
  have h := getClientSecret_missing_secret "wf_123" initialControllerState none "OK"
    (.json (.obj [])) rfl rfl
  exact ⟨h.1, h.2.2 rfl⟩

/-- Claim C6: `switch_theme` succeeds and invokes the theme callback
exactly for the parameter strings "light" and "dark"; for any other
parameter (other string, non-string, absent) it returns failure and emits
no effect. -/
theorem switchTheme_dispatch (st : ControllerState) (params : List (String × JValue)) :
    (∀ s, stringOf (lookupParam params "theme") = some s → (s = "light" ∨ s = "dark") →
      onClientTool st ⟨"switch_theme", params⟩ = (st, [.themeRequest s], ⟨true⟩)) ∧
    ((∀ s, stringOf (lookupParam params "theme") = some s → s ≠ "light" ∧ s ≠ "dark") →
      onClientTool st ⟨"switch_theme", params⟩ = (st, [], ⟨false⟩)) := by
  constructor
  · intro s hs hval
    rcases hval with h | h <;> subst h <;> simp [onClientTool, hs]
  · intro hno
    cases hs : stringOf (lookupParam params "theme") with
    | none => simp [onClientTool, hs]
    | some s =>
      have hne := hno s hs
      simp [onClientTool, hs, hne.1, hne.2]

/-- Witness for Claim C6: "dark" dispatches the callback and succeeds,
"sepia" fails with no effect. -/
theorem switchTheme_dispatch_witness :
    onClientTool initialControllerState ⟨"switch_theme", [("theme", JValue.str "dark")]⟩ =
      (initialControllerState, [.themeRequest "dark"], ⟨true⟩) ∧
    onClientTool initialControllerState ⟨"switch_theme", [("theme", JValue.str "sepia")]⟩ =
      (initialControllerState, [], ⟨false⟩) := by
  constructor
  · exact (switchTheme_dispatch initialControllerState _).1 "dark" rfl (Or.inr rfl)
  · refine (switchTheme_dispatch initialControllerState _).2 ?_
    intro s hs
    simp [lookupParam, stringOf] at hs
    subst hs
    exact ⟨by decide, by decide⟩

/-- Claim C7: a manual reset bumps the widget generation by one, clears
the dedup set, clears the error, re-enters Initializing and clears the
auto-start guard; from the reset state a run of auto-start firings sends
exactly one message when some firing is ready and none otherwise. -/
theorem handleResetChat_spec :
    (∀ st, (handleResetChat st).widgetInstanceKey = st.widgetInstanceKey + 1 ∧
           (handleResetChat st).processedFacts = [] ∧
           (handleResetChat st).errorMessage = none ∧
           (handleResetChat st).isInitializingSession = true ∧
           (handleResetChat st).hasAutoStarted = false) ∧
    (∀ st frs, countSends (runAutoStarts (handleResetChat st) frs).2 =
        if frs.any firesReady then 1 else 0) :=
  ⟨fun _ => ⟨rfl, rfl, rfl, rfl, rfl⟩,
   fun _ frs => runAutoStarts_fresh frs _ rfl⟩

/-- Claim C8: a thread-change event clears the dedup set and the
auto-start guard and leaves the generation counter and every other field
unchanged; an id whose handler ran before the event triggers the handler
again after it. -/
theorem threadChange_spec :
    (∀ st, (onThreadChange st).processedFacts = [] ∧
           (onThreadChange st).hasAutoStarted = false ∧
           (onThreadChange st).errorMessage = st.errorMessage ∧
           (onThreadChange st).isInitializingSession = st.isInitializingSession ∧
           (onThreadChange st).widgetInstanceKey = st.widgetInstanceKey ∧
           (onThreadChange st).isMounted = st.isMounted) ∧
    countFact "f1" (onClientTool (onThreadChange
        (onClientTool initialControllerState (recordFactInv "f1" "note")).1)
        (recordFactInv "f1" "note")).2.1 = 1 := by
  refine ⟨fun _ => ⟨rfl, rfl, rfl, rfl, rfl, rfl⟩, ?_⟩
  simp [onClientTool, onThreadChange, recordFactInv, lookupParam, jsCoerceParam,
    jsString, initialControllerState, countFact]

/-- Claim C9 as stated is false on the code: `getClientSecret` itself
writes the shared error surface; with the unconfigured workflow id and the
freshly mounted state the error message changes across the call. -/
theorem getClientSecret_writes_error_surface :
    (getClientSecret "" initialControllerState none
        (.fails none)).state.errorMessage ≠ initialControllerState.errorMessage := by
  decide

/-- Claim C9 amended: beyond the single network call, `getClientSecret`
mutates only the error message and the initializing flag (each write
guarded by the mounted ref); the dedup set, the generation counter, the
auto-start guard and the mounted flag are untouched, and on an unmounted
component no state changes at all — the outcome is only returned or
thrown. -/
theorem getClientSecret_frame (workflowId : String) (st : ControllerState)
    (currentSecret : Option String) (net : NetworkBehavior) :
    ((getClientSecret workflowId st currentSecret net).state.processedFacts =
        st.processedFacts ∧
     (getClientSecret workflowId st currentSecret net).state.widgetInstanceKey =
        st.widgetInstanceKey ∧
     (getClientSecret workflowId st currentSecret net).state.hasAutoStarted =
        st.hasAutoStarted ∧
     (getClientSecret workflowId st currentSecret net).state.isMounted =
        st.isMounted) ∧
    (st.isMounted = false →
      (getClientSecret workflowId st currentSecret net).state = st) := by
  constructor
  · unfold getClientSecret
    cases net <;> repeat' split <;> simp_all
  · intro hm
    unfold getClientSecret
    cases net <;> repeat' split <;> simp_all

/-- Witness for Claim C9 (amended): a torn-down component is never
mutated. -/
theorem getClientSecret_frame_witness :
    (getClientSecret "" unmountedState none (.fails none)).state = unmountedState :=
  (getClientSecret_frame "" unmountedState none (.fails none)).2 rfl

/-- Claim C10: the widget error handler only logs: the controller state is
returned unchanged and the only effect is the log call. -/
theorem onError_state_unchanged (st : ControllerState) :
    (onErrorHandler st).1 = st ∧ (onErrorHandler st).2 = [Effect.logError] :=
  ⟨rfl, rfl⟩

end ChatKitPanel
